import Mathlib

/-!
Verification of the `AgroEcosystem` seasonal simulator (`Src/ecosystem.py`).

The simulator is embedded shallowly over exact rationals (ℚ): every state
field of the Python class becomes a ℚ field, every method becomes a Lean
function, and the mutable-dictionary updates become functional record
updates performed in the source's order.  Python float literals such as
`0.25` are read as the corresponding rationals, so all arithmetic is exact.
-/

namespace Agro

/-- The nine scalar state fields held by `AgroEcosystem.states`. -/
structure EcoState where
  crop : ℚ
  weed : ℚ
  pest : ℚ
  bird : ℚ
  bat : ℚ
  soil_nutrient : ℚ
  soil_health : ℚ
  herbicide_residue : ℚ
  pesticide_residue : ℚ
deriving DecidableEq

/-- `INITIAL_STATES` of `AgroEcosystem`. -/
def initialStates : EcoState :=
  { crop := 0, weed := 30, pest := 5, bird := 0, bat := 0,
    soil_nutrient := 50, soil_health := 50,
    herbicide_residue := 0, pesticide_residue := 0 }

/-- The scenario configuration record consumed by the simulator: the seven
boolean flags plus the two optional stop years (`None` = never stop). -/
structure Scenario where
  use_fertilizer : Bool
  use_organic_fertilizer : Bool
  use_herbicide : Bool
  use_pesticide : Bool
  use_cover_crop : Bool
  introduce_birds : Bool
  introduce_bats : Bool
  herbicide_stop_year : Option ℕ
  pesticide_stop_year : Option ℕ
deriving DecidableEq

/-- The four seasons, in the order iterated by `simulate_year`. -/
inductive Season where
  | spring
  | summer
  | autumn
  | winter
deriving DecidableEq

/-- `SEASON_FACTORS`. -/
def seasonFactor : Season → ℚ
  | .spring => 0.8
  | .summer => 1.2
  | .autumn => 0.9
  | .winter => 0.3

/-- One entry of the history log: the snapshot of all nine state fields plus
the year counter and the season label, as appended by `record_state`. -/
structure Snapshot where
  state : EcoState
  year : ℕ
  season : Season
deriving DecidableEq

/-- A simulation instance: scenario, elapsed-year counter, current state and
the append-only history. -/
structure Sim where
  scenario : Scenario
  year : ℕ
  states : EcoState
  history : List Snapshot
deriving DecidableEq

/-- `AgroEcosystem.__init__`: fresh instance at year 0 with empty history. -/
def mkSim (sc : Scenario) : Sim :=
  { scenario := sc, year := 0, states := initialStates, history := [] }

/-! ### Policy engine -/

/-- `apply_fertilizer`: organic adds 15 nutrient and 2 health (clamped at
100); chemical adds 30 nutrient and removes 1 health (clamped at 0). -/
def applyFertilizer (sim : Sim) : Sim :=
  if sim.scenario.use_organic_fertilizer then
    { sim with states := { sim.states with
        soil_nutrient := sim.states.soil_nutrient + 15,
        soil_health := min 100 (sim.states.soil_health + 2) } }
  else
    { sim with states := { sim.states with
        soil_nutrient := sim.states.soil_nutrient + 30,
        soil_health := max 0 (sim.states.soil_health - 1) } }

/-- `handle_spring_operations`: plant crop at 80, then fertilize if enabled. -/
def handleSpringOperations (sim : Sim) : Sim :=
  let sim1 : Sim := { sim with states := { sim.states with crop := 80 } }
  if sim1.scenario.use_fertilizer then applyFertilizer sim1 else sim1

/-- The two chemical kinds dispatched on by `should_apply_chemical` and
`apply_chemical`. -/
inductive Chem where
  | pesticide
  | herbicide
deriving DecidableEq

/-- The per-chemical scenario flag `use_{chemical_type}`. -/
def chemUseFlag (sc : Scenario) : Chem → Bool
  | .pesticide => sc.use_pesticide
  | .herbicide => sc.use_herbicide

/-- The per-chemical optional stop year `{chemical_type}_stop_year`. -/
def chemStopYear (sc : Scenario) : Chem → Option ℕ
  | .pesticide => sc.pesticide_stop_year
  | .herbicide => sc.herbicide_stop_year

/-- The application thresholds `{'pesticide': 8, 'herbicide': 15}`. -/
def chemThreshold : Chem → ℚ
  | .pesticide => 8
  | .herbicide => 15

/-- The targeted state level: pest for pesticide, weed for herbicide. -/
def chemStateLevel (s : EcoState) : Chem → ℚ
  | .pesticide => s.pest
  | .herbicide => s.weed

/-- `PARAMS['pesticide_effect'] = 0.6`, `PARAMS['herbicide_effect'] = 0.7`. -/
def chemEffect : Chem → ℚ
  | .pesticide => 0.6
  | .herbicide => 0.7

/-- `PARAMS['predator_pesticide_mortality']`. -/
def predatorPesticideMortality : ℚ := 0.3

/-- `should_apply_chemical`: flag set, target level above threshold, and
no stop year or current year strictly before it. -/
def shouldApplyChemical (c : Chem) (sim : Sim) : Bool :=
  chemUseFlag sim.scenario c &&
  decide (chemThreshold c < chemStateLevel sim.states c) &&
  (match chemStopYear sim.scenario c with
   | none => true
   | some y => decide (sim.year < y))

/-- `apply_chemical`: set the residue to the fixed dose (50 pesticide,
40 herbicide), kill the target by the effect fraction, and for pesticide
also kill 30% of birds and bats. -/
def applyChemical (c : Chem) (sim : Sim) : Sim :=
  match c with
  | .pesticide =>
    { sim with states := { sim.states with
        pesticide_residue := 50,
        pest := sim.states.pest * (1 - chemEffect .pesticide),
        bird := sim.states.bird * (1 - predatorPesticideMortality),
        bat := sim.states.bat * (1 - predatorPesticideMortality) } }
  | .herbicide =>
    { sim with states := { sim.states with
        herbicide_residue := 40,
        weed := sim.states.weed * (1 - chemEffect .herbicide) } }

/-- The mechanical-weeding efficiency
`min(0.5, 0.25 + 0.03 * min(8, self.year))` used by
`apply_organic_weed_control`. -/
def mechEfficiency (year : ℕ) : ℚ := min 0.5 (0.25 + 0.03 * min 8 (year : ℚ))

/-- `apply_organic_weed_control`: mechanical weeding when weed > 20, cover
crop competition when enabled, crop-density suppression, then clamp ≥ 0. -/
def applyOrganicWeedControl (sim : Sim) : Sim :=
  let weed0 := sim.states.weed
  let s1 : EcoState :=
    if 20 < weed0 then
      { sim.states with weed := sim.states.weed * (1 - mechEfficiency sim.year) }
    else sim.states
  let s2 : EcoState :=
    if sim.scenario.use_cover_crop then { s1 with weed := s1.weed * 0.8 } else s1
  let cde := min 0.3 (s2.crop * 0.001)
  let s3 : EcoState := { s2 with weed := s2.weed * (1 - cde) }
  { sim with states := { s3 with weed := max 0 s3.weed } }

/-- `handle_summer_operations`: possibly apply pesticide, then either apply
herbicide (when eligible) or fall back to organic weed control. -/
def handleSummerOperations (sim : Sim) : Sim :=
  let sim1 := if shouldApplyChemical .pesticide sim then applyChemical .pesticide sim else sim
  if shouldApplyChemical .herbicide sim1 then applyChemical .herbicide sim1
  else applyOrganicWeedControl sim1

/-- `seasonal_operations`: spring and summer have operations; autumn and
winter have none. -/
def seasonalOperations (season : Season) (sim : Sim) : Sim :=
  match season with
  | .spring => handleSpringOperations sim
  | .summer => handleSummerOperations sim
  | .autumn => sim
  | .winter => sim

/-! ### Growth model -/

/-- Base logistic crop growth `r_crop * C * (1 - C / K_crop)`. -/
def cropBase (C : ℚ) : ℚ := 0.8 * C * (1 - C / 300)

/-- Pest pressure on crop: `min(0.6, abs(pest_on_crop) * P * 0.02)`. -/
def pestEffectOnCrop (P : ℚ) : ℚ := min 0.6 (|(-0.5 : ℚ)| * P * 0.02)

/-- Weed pressure on crop: `min(0.5, abs(crop_weed_comp) * W * 0.03)`. -/
def weedEffectOnCrop (W : ℚ) : ℚ := min 0.5 (|(-2 : ℚ)| * W * 0.03)

/-- The net crop growth before soil scaling:
`max(0.05, base * (1 - pest_effect - weed_effect))`. -/
def cropNet (C W P : ℚ) : ℚ :=
  max 0.05 (cropBase C * (1 - pestEffectOnCrop P - weedEffectOnCrop W))

/-- `calculate_crop_growth`: net growth scaled by the soil-health factor,
plus the fertilizer bonus when the fertilizer flag is on. -/
def calculateCropGrowth (sim : Sim) (C W P : ℚ) : ℚ :=
  let net := cropNet C W P
  let soil_factor := 0.5 + sim.states.soil_health / 100 * 0.5
  let fertilizer_bonus :=
    if sim.scenario.use_fertilizer then
      (if sim.scenario.use_organic_fertilizer then (0.2 : ℚ) else 0.3) *
        sim.states.soil_nutrient * 0.01
    else 0
  net * soil_factor + fertilizer_bonus

/-- `calculate_weed_growth`. -/
def calculateWeedGrowth (sim : Sim) (W C : ℚ) : ℚ :=
  let base := 0.6 * W * (1 - W / 100)
  let crop_competition := min 0.5 (0.05 + C * 0.001)
  base * (1 - crop_competition) + (-0.05) * sim.states.herbicide_residue

/-- `calculate_pest_growth`. -/
def calculatePestGrowth (sim : Sim) (P B T : ℚ) : ℚ :=
  let base := 0.5 * P * (1 - P / 80)
  let bird_efficiency := min 0.6 (0.3 + 0.02 * (sim.year : ℚ))
  let bat_efficiency := min 0.5 (0.25 + 0.015 * (sim.year : ℚ))
  let predation := bird_efficiency * B * 0.05 + bat_efficiency * T * 0.04
  base * (1 - predation) + (-0.01) * sim.states.pesticide_residue

/-- The weed multiplier `1 - min(0.1, B * 0.005)` applied as a side effect
of `calculate_bird_growth` (birds consume weed seeds). -/
def birdSeedFactor (B : ℚ) : ℚ := 1 - min 0.1 (B * 0.005)

/-- The returned rate of `calculate_bird_growth`. -/
def calculateBirdGrowth (B P : ℚ) : ℚ :=
  let food_effect := min 0.2 (P / 50)
  0.1 * B * (1 - B / 20) * (1 + 0.5 * food_effect)

/-- `calculate_bat_growth`. -/
def calculateBatGrowth (T P : ℚ) : ℚ :=
  let food_effect := min 0.2 (P / 50)
  0.08 * T * (1 - T / 15) * (1 + 0.4 * food_effect)

/-- The record of per-species rates returned by `calculate_growth_rates`
(already scaled by the season factor). -/
structure GrowthRates where
  crop : ℚ
  weed : ℚ
  pest : ℚ
  bird : ℚ
  bat : ℚ

/-- `calculate_growth_rates`: compute the five rates from the state captured
at entry, with the bird computation's in-place weed depletion (performed only
when bird > 0), then scale everything by the season factor.  Returns the
rates together with the (possibly weed-mutated) simulation. -/
def calculateGrowthRates (season : Season) (sim : Sim) : GrowthRates × Sim :=
  let C := sim.states.crop
  let W := sim.states.weed
  let P := sim.states.pest
  let B := sim.states.bird
  let T := sim.states.bat
  let rc := calculateCropGrowth sim C W P
  let rw := calculateWeedGrowth sim W C
  let rp := calculatePestGrowth sim P B T
  let rb := if 0 < B then calculateBirdGrowth B P else 0
  let sim1 : Sim :=
    if 0 < B then
      { sim with states := { sim.states with weed := sim.states.weed * birdSeedFactor B } }
    else sim
  let rt := if 0 < T then calculateBatGrowth T P else 0
  let f := seasonFactor season
  ({ crop := rc * f, weed := rw * f, pest := rp * f, bird := rb * f, bat := rt * f }, sim1)

/-! ### Predator recovery -/

/-- The two predator species handled by `handle_predator_recovery`. -/
inductive Predator where
  | bird
  | bat
deriving DecidableEq

/-- The introduction seed values (bird 2.0, bat 1.5). -/
def predatorSeed : Predator → ℚ
  | .bird => 2
  | .bat => 1.5

/-- `PARAMS['r_bird'] / PARAMS['r_bat']`. -/
def predatorR : Predator → ℚ
  | .bird => 0.1
  | .bat => 0.08

/-- `PARAMS['K_bird'] / PARAMS['K_bat']`. -/
def predatorK : Predator → ℚ
  | .bird => 20
  | .bat => 15

/-- Read the population of a predator from the state. -/
def getPredator (s : EcoState) : Predator → ℚ
  | .bird => s.bird
  | .bat => s.bat

/-- Write the population of a predator into the state. -/
def setPredator (s : EcoState) (p : Predator) (v : ℚ) : EcoState :=
  match p with
  | .bird => { s with bird := v }
  | .bat => { s with bat := v }

/-- The scenario flag `introduce_{predator}s`. -/
def introduceFlag (sc : Scenario) : Predator → Bool
  | .bird => sc.introduce_birds
  | .bat => sc.introduce_bats

/-- `update_predator_population`: seed the species when its population is
exactly 0, otherwise apply half of a pest-boosted logistic increment. -/
def updatePredatorPopulation (p : Predator) (sim : Sim) : Sim :=
  if getPredator sim.states p = 0 then
    { sim with states := setPredator sim.states p (predatorSeed p) }
  else
    let current := getPredator sim.states p
    let pest_effect := min 0.3 (sim.states.pest / 100)
    let growth := predatorR p * current * (1 - current / predatorK p) * (1 + pest_effect)
    { sim with states := setPredator sim.states p (current + growth * 0.5) }

/-- `handle_predator_recovery`: run the bird update, then the bat update,
each only when its introduction flag is set. -/
def handlePredatorRecovery (sim : Sim) : Sim :=
  let sim1 := if introduceFlag sim.scenario .bird then updatePredatorPopulation .bird sim else sim
  if introduceFlag sim1.scenario .bat then updatePredatorPopulation .bat sim1 else sim1

/-- `update_populations`: add each season-scaled rate to its field, clamping
at 0, in the source's dictionary order crop, weed, pest, bird, bat; then run
predator recovery. -/
def updatePopulations (season : Season) (sim : Sim) : Sim :=
  let pr := calculateGrowthRates season sim
  let rates := pr.1
  let sim1 := pr.2
  let st := sim1.states
  let st1 : EcoState := { st with crop := max 0 (st.crop + rates.crop) }
  let st2 : EcoState := { st1 with weed := max 0 (st1.weed + rates.weed) }
  let st3 : EcoState := { st2 with pest := max 0 (st2.pest + rates.pest) }
  let st4 : EcoState := { st3 with bird := max 0 (st3.bird + rates.bird) }
  let st5 : EcoState := { st4 with bat := max 0 (st4.bat + rates.bat) }
  handlePredatorRecovery { sim1 with states := st5 }

/-! ### Chemical decay, recording and the driver -/

/-- `update_chemicals`: residues decay by their decay rates, soil nutrient
is consumed by 10%. -/
def updateChemicals (sim : Sim) : Sim :=
  { sim with states := { sim.states with
      pesticide_residue := sim.states.pesticide_residue * (1 - 0.25),
      herbicide_residue := sim.states.herbicide_residue * (1 - 0.3),
      soil_nutrient := sim.states.soil_nutrient * 0.9 } }

/-- `record_state`: append the snapshot of the current state, year and
season label to the history. -/
def recordState (season : Season) (sim : Sim) : Sim :=
  { sim with history := sim.history ++ [⟨sim.states, sim.year, season⟩] }

/-- One season step of `simulate_year`: operations, population update,
chemical decay, then recording, in that order. -/
def stepSeason (season : Season) (sim : Sim) : Sim :=
  recordState season (updateChemicals (updatePopulations season (seasonalOperations season sim)))

/-- The fixed season order iterated by `simulate_year`. -/
def seasonOrder : List Season := [.spring, .summer, .autumn, .winter]

/-- `simulate_year`: run the four season steps in order, then increment the
year counter. -/
def simulateYear (sim : Sim) : Sim :=
  let sim1 := seasonOrder.foldl (fun s season => stepSeason season s) sim
  { sim1 with year := sim1.year + 1 }

/-- The simulation after `n` full years from a fresh instance. -/
def simYears (sc : Scenario) : ℕ → Sim
  | 0 => mkSim sc
  | n + 1 => simulateYear (simYears sc n)

/-! ### Invariants -/

/-- All nine state fields are non-negative. -/
def Nonneg (s : EcoState) : Prop :=
  0 ≤ s.crop ∧ 0 ≤ s.weed ∧ 0 ≤ s.pest ∧ 0 ≤ s.bird ∧ 0 ≤ s.bat ∧
  0 ≤ s.soil_nutrient ∧ 0 ≤ s.soil_health ∧
  0 ≤ s.herbicide_residue ∧ 0 ≤ s.pesticide_residue

/-- The mid-step invariant: non-negativity, predator caps, and the residues
at most their raw doses (50 / 40), as holds between summer application and
the season's decay. -/
def MidInv (s : EcoState) : Prop :=
  Nonneg s ∧ s.bird ≤ 21 ∧ s.bat ≤ 16 ∧
  s.pesticide_residue ≤ 50 ∧ s.herbicide_residue ≤ 40

/-- The end-of-step invariant: non-negativity, predator caps, and the
residues at most one decay step below their doses (37.5 / 28). -/
def StepInv (s : EcoState) : Prop :=
  Nonneg s ∧ s.bird ≤ 21 ∧ s.bat ≤ 16 ∧
  s.pesticide_residue ≤ 37.5 ∧ s.herbicide_residue ≤ 28

lemma StepInv.toMid {s : EcoState} (h : StepInv s) : MidInv s := by
  obtain ⟨hn, hb, ht, hp, hh⟩ := h
  exact ⟨hn, hb, ht, by linarith, by linarith⟩

/-! ### Arithmetic bounds for the predator updates

Both the season growth application (`B + calculateBirdGrowth B P * f`) and
the recovery increment (`B + r*B*(1-B/K)*(1+pe)*0.5`) have the common shape
`B + r*B*(1-B/K)*m*f` with `m ∈ [1, 1.3]` and `f ∈ [0, 1.2]`. -/

lemma birdStep_le {B m f : ℚ} (hB0 : 0 ≤ B) (hB : B ≤ 21)
    (hm1 : 1 ≤ m) (hm : m ≤ 1.3) (hf0 : 0 ≤ f) (hf : f ≤ 1.2) :
    B + 0.1 * B * (1 - B / 20) * m * f ≤ 21 := by
  rcases le_or_lt B 20 with h | h
  · have hq : 0.1 * B * (1 - B / 20) ≤ 0.5 := by nlinarith [sq_nonneg (B - 10)]
    have hq0 : 0 ≤ 0.1 * B * (1 - B / 20) := by
      apply mul_nonneg (by linarith)
      linarith
    have h1 : 0.1 * B * (1 - B / 20) * m ≤ 0.5 * 1.3 :=
      mul_le_mul hq hm (by linarith) (by norm_num)
    have h2 : 0.1 * B * (1 - B / 20) * m * f ≤ 0.5 * 1.3 * 1.2 :=
      mul_le_mul h1 hf hf0 (by norm_num)
    linarith
  · have hq : 0.1 * B * (1 - B / 20) ≤ 0 :=
      mul_nonpos_of_nonneg_of_nonpos (by linarith) (by linarith)
    have h1 : 0.1 * B * (1 - B / 20) * m ≤ 0 :=
      mul_nonpos_of_nonpos_of_nonneg hq (by linarith)
    have h2 : 0.1 * B * (1 - B / 20) * m * f ≤ 0 :=
      mul_nonpos_of_nonpos_of_nonneg h1 hf0
    linarith

lemma birdStep_nonneg {B m f : ℚ} (hB0 : 0 ≤ B) (hB : B ≤ 21)
    (hm1 : 1 ≤ m) (hm : m ≤ 1.3) (hf0 : 0 ≤ f) (hf : f ≤ 1.2) :
    0 ≤ B + 0.1 * B * (1 - B / 20) * m * f := by
  rcases le_or_lt B 20 with h | h
  · have hq0 : 0 ≤ 0.1 * B * (1 - B / 20) :=
      mul_nonneg (by linarith) (by linarith)
    have h1 : 0 ≤ 0.1 * B * (1 - B / 20) * m := mul_nonneg hq0 (by linarith)
    have h2 : 0 ≤ 0.1 * B * (1 - B / 20) * m * f := mul_nonneg h1 hf0
    linarith
  · nlinarith [mul_nonneg (mul_nonneg (show (0:ℚ) ≤ 21 - B by linarith)
        (show (0:ℚ) ≤ B + 1 by linarith)) (mul_nonneg (show (0:ℚ) ≤ m by linarith) hf0),
      mul_le_mul hm hf hf0 (show (0:ℚ) ≤ 1.3 by norm_num)]

lemma birdStep_pos {B m f : ℚ} (hBpos : 0 < B) (hB : B ≤ 21)
    (hm1 : 1 ≤ m) (hm : m ≤ 1.3) (hf0 : 0 ≤ f) (hf : f ≤ 1.2) :
    0 < B + 0.1 * B * (1 - B / 20) * m * f := by
  rcases le_or_lt B 20 with h | h
  · have hq0 : 0 ≤ 0.1 * B * (1 - B / 20) :=
      mul_nonneg (by linarith) (by linarith)
    have h1 : 0 ≤ 0.1 * B * (1 - B / 20) * m := mul_nonneg hq0 (by linarith)
    have h2 : 0 ≤ 0.1 * B * (1 - B / 20) * m * f := mul_nonneg h1 hf0
    linarith
  · nlinarith [mul_nonneg (mul_nonneg (show (0:ℚ) ≤ 21 - B by linarith)
        (show (0:ℚ) ≤ B + 1 by linarith)) (mul_nonneg (show (0:ℚ) ≤ m by linarith) hf0),
      mul_le_mul hm hf hf0 (show (0:ℚ) ≤ 1.3 by norm_num)]

lemma batStep_le {T m f : ℚ} (hT0 : 0 ≤ T) (hT : T ≤ 16)
    (hm1 : 1 ≤ m) (hm : m ≤ 1.3) (hf0 : 0 ≤ f) (hf : f ≤ 1.2) :
    T + 0.08 * T * (1 - T / 15) * m * f ≤ 16 := by
  rcases le_or_lt T 15 with h | h
  · have hq : 0.08 * T * (1 - T / 15) ≤ 0.3 := by nlinarith [sq_nonneg (T - 15/2)]
    have hq0 : 0 ≤ 0.08 * T * (1 - T / 15) :=
      mul_nonneg (by linarith) (by linarith)
    have h1 : 0.08 * T * (1 - T / 15) * m ≤ 0.3 * 1.3 :=
      mul_le_mul hq hm (by linarith) (by norm_num)
    have h2 : 0.08 * T * (1 - T / 15) * m * f ≤ 0.3 * 1.3 * 1.2 :=
      mul_le_mul h1 hf hf0 (by norm_num)
    linarith
  · have hq : 0.08 * T * (1 - T / 15) ≤ 0 :=
      mul_nonpos_of_nonneg_of_nonpos (by linarith) (by linarith)
    have h1 : 0.08 * T * (1 - T / 15) * m ≤ 0 :=
      mul_nonpos_of_nonpos_of_nonneg hq (by linarith)
    have h2 : 0.08 * T * (1 - T / 15) * m * f ≤ 0 :=
      mul_nonpos_of_nonpos_of_nonneg h1 hf0
    linarith

lemma batStep_nonneg {T m f : ℚ} (hT0 : 0 ≤ T) (hT : T ≤ 16)
    (hm1 : 1 ≤ m) (hm : m ≤ 1.3) (hf0 : 0 ≤ f) (hf : f ≤ 1.2) :
    0 ≤ T + 0.08 * T * (1 - T / 15) * m * f := by
  rcases le_or_lt T 15 with h | h
  · have hq0 : 0 ≤ 0.08 * T * (1 - T / 15) :=
      mul_nonneg (by linarith) (by linarith)
    have h1 : 0 ≤ 0.08 * T * (1 - T / 15) * m := mul_nonneg hq0 (by linarith)
    have h2 : 0 ≤ 0.08 * T * (1 - T / 15) * m * f := mul_nonneg h1 hf0
    linarith
  · nlinarith [mul_nonneg (mul_nonneg (show (0:ℚ) ≤ 16 - T by linarith)
        (show (0:ℚ) ≤ T + 1 by linarith)) (mul_nonneg (show (0:ℚ) ≤ m by linarith) hf0),
      mul_le_mul hm hf hf0 (show (0:ℚ) ≤ 1.3 by norm_num)]

lemma seasonFactor_nonneg (s : Season) : 0 ≤ seasonFactor s := by
  cases s <;> norm_num [seasonFactor]

lemma seasonFactor_le (s : Season) : seasonFactor s ≤ 1.2 := by
  cases s <;> norm_num [seasonFactor]

/-! ### Bookkeeping: each operation leaves year, scenario (and except for
recording, the history) untouched -/

@[simp] lemma applyFertilizer_year (sim : Sim) : (applyFertilizer sim).year = sim.year := by
  unfold applyFertilizer; split_ifs <;> rfl

@[simp] lemma applyFertilizer_scenario (sim : Sim) :
    (applyFertilizer sim).scenario = sim.scenario := by
  unfold applyFertilizer; split_ifs <;> rfl

@[simp] lemma applyFertilizer_history (sim : Sim) :
    (applyFertilizer sim).history = sim.history := by
  unfold applyFertilizer; split_ifs <;> rfl

@[simp] lemma handleSpringOperations_year (sim : Sim) :
    (handleSpringOperations sim).year = sim.year := by
  simp only [handleSpringOperations]; split_ifs <;> simp

@[simp] lemma handleSpringOperations_scenario (sim : Sim) :
    (handleSpringOperations sim).scenario = sim.scenario := by
  simp only [handleSpringOperations]; split_ifs <;> simp

@[simp] lemma handleSpringOperations_history (sim : Sim) :
    (handleSpringOperations sim).history = sim.history := by
  simp only [handleSpringOperations]; split_ifs <;> simp

@[simp] lemma applyChemical_year (c : Chem) (sim : Sim) :
    (applyChemical c sim).year = sim.year := by cases c <;> rfl

@[simp] lemma applyChemical_scenario (c : Chem) (sim : Sim) :
    (applyChemical c sim).scenario = sim.scenario := by cases c <;> rfl

@[simp] lemma applyChemical_history (c : Chem) (sim : Sim) :
    (applyChemical c sim).history = sim.history := by cases c <;> rfl

@[simp] lemma applyOrganicWeedControl_year (sim : Sim) :
    (applyOrganicWeedControl sim).year = sim.year := by
  unfold applyOrganicWeedControl; split_ifs <;> rfl

@[simp] lemma applyOrganicWeedControl_scenario (sim : Sim) :
    (applyOrganicWeedControl sim).scenario = sim.scenario := by
  unfold applyOrganicWeedControl; split_ifs <;> rfl

@[simp] lemma applyOrganicWeedControl_history (sim : Sim) :
    (applyOrganicWeedControl sim).history = sim.history := by
  unfold applyOrganicWeedControl; split_ifs <;> rfl

@[simp] lemma handleSummerOperations_year (sim : Sim) :
    (handleSummerOperations sim).year = sim.year := by
  simp only [handleSummerOperations]; split_ifs <;> simp

@[simp] lemma handleSummerOperations_scenario (sim : Sim) :
    (handleSummerOperations sim).scenario = sim.scenario := by
  simp only [handleSummerOperations]; split_ifs <;> simp

@[simp] lemma handleSummerOperations_history (sim : Sim) :
    (handleSummerOperations sim).history = sim.history := by
  simp only [handleSummerOperations]; split_ifs <;> simp

@[simp] lemma seasonalOperations_year (s : Season) (sim : Sim) :
    (seasonalOperations s sim).year = sim.year := by
  cases s <;> simp [seasonalOperations]

@[simp] lemma seasonalOperations_scenario (s : Season) (sim : Sim) :
    (seasonalOperations s sim).scenario = sim.scenario := by
  cases s <;> simp [seasonalOperations]

@[simp] lemma seasonalOperations_history (s : Season) (sim : Sim) :
    (seasonalOperations s sim).history = sim.history := by
  cases s <;> simp [seasonalOperations]

@[simp] lemma updatePredatorPopulation_year (p : Predator) (sim : Sim) :
    (updatePredatorPopulation p sim).year = sim.year := by
  unfold updatePredatorPopulation; split_ifs <;> cases p <;> rfl

@[simp] lemma updatePredatorPopulation_scenario (p : Predator) (sim : Sim) :
    (updatePredatorPopulation p sim).scenario = sim.scenario := by
  unfold updatePredatorPopulation; split_ifs <;> cases p <;> rfl

@[simp] lemma updatePredatorPopulation_history (p : Predator) (sim : Sim) :
    (updatePredatorPopulation p sim).history = sim.history := by
  unfold updatePredatorPopulation; split_ifs <;> cases p <;> rfl

@[simp] lemma handlePredatorRecovery_year (sim : Sim) :
    (handlePredatorRecovery sim).year = sim.year := by
  simp only [handlePredatorRecovery]; split_ifs <;> simp

@[simp] lemma handlePredatorRecovery_scenario (sim : Sim) :
    (handlePredatorRecovery sim).scenario = sim.scenario := by
  simp only [handlePredatorRecovery]; split_ifs <;> simp

@[simp] lemma handlePredatorRecovery_history (sim : Sim) :
    (handlePredatorRecovery sim).history = sim.history := by
  simp only [handlePredatorRecovery]; split_ifs <;> simp

/-- The pair returned by `calculate_growth_rates`: the simulation component
is the input with the bird seed-predation side effect on weed. -/
lemma calculateGrowthRates_snd (season : Season) (sim : Sim) :
    (calculateGrowthRates season sim).2 =
      if 0 < sim.states.bird then
        { sim with states :=
            { sim.states with weed := sim.states.weed * birdSeedFactor sim.states.bird } }
      else sim := rfl

@[simp] lemma calculateGrowthRates_snd_year (season : Season) (sim : Sim) :
    (calculateGrowthRates season sim).2.year = sim.year := by
  rw [calculateGrowthRates_snd]; split_ifs <;> rfl

@[simp] lemma calculateGrowthRates_snd_scenario (season : Season) (sim : Sim) :
    (calculateGrowthRates season sim).2.scenario = sim.scenario := by
  rw [calculateGrowthRates_snd]; split_ifs <;> rfl

@[simp] lemma calculateGrowthRates_snd_history (season : Season) (sim : Sim) :
    (calculateGrowthRates season sim).2.history = sim.history := by
  rw [calculateGrowthRates_snd]; split_ifs <;> rfl

@[simp] lemma updatePopulations_year (s : Season) (sim : Sim) :
    (updatePopulations s sim).year = sim.year := by
  unfold updatePopulations; simp

@[simp] lemma updatePopulations_scenario (s : Season) (sim : Sim) :
    (updatePopulations s sim).scenario = sim.scenario := by
  unfold updatePopulations; simp

@[simp] lemma updatePopulations_history (s : Season) (sim : Sim) :
    (updatePopulations s sim).history = sim.history := by
  unfold updatePopulations; simp

@[simp] lemma updateChemicals_year (sim : Sim) : (updateChemicals sim).year = sim.year := rfl

@[simp] lemma updateChemicals_scenario (sim : Sim) :
    (updateChemicals sim).scenario = sim.scenario := rfl

@[simp] lemma updateChemicals_history (sim : Sim) :
    (updateChemicals sim).history = sim.history := rfl

@[simp] lemma recordState_year (s : Season) (sim : Sim) :
    (recordState s sim).year = sim.year := rfl

@[simp] lemma recordState_scenario (s : Season) (sim : Sim) :
    (recordState s sim).scenario = sim.scenario := rfl

@[simp] lemma recordState_states (s : Season) (sim : Sim) :
    (recordState s sim).states = sim.states := rfl

@[simp] lemma stepSeason_year (s : Season) (sim : Sim) :
    (stepSeason s sim).year = sim.year := by
  unfold stepSeason; simp

@[simp] lemma stepSeason_scenario (s : Season) (sim : Sim) :
    (stepSeason s sim).scenario = sim.scenario := by
  unfold stepSeason; simp

lemma stepSeason_history (s : Season) (sim : Sim) :
    (stepSeason s sim).history =
      sim.history ++ [⟨(stepSeason s sim).states, sim.year, s⟩] := by
  unfold stepSeason recordState
  simp

/-! ### Mid-step invariant preservation through each phase -/

lemma applyFertilizer_mid {sim : Sim} (h : MidInv sim.states) :
    MidInv (applyFertilizer sim).states := by
  obtain ⟨⟨h1, h2, h3, h4, h5, h6, h7, h8, h9⟩, hb, ht, hp, hh⟩ := h
  unfold applyFertilizer
  split_ifs
  · exact ⟨⟨h1, h2, h3, h4, h5,
      show 0 ≤ sim.states.soil_nutrient + 15 by linarith,
      le_min (by norm_num) (by linarith), h8, h9⟩, hb, ht, hp, hh⟩
  · exact ⟨⟨h1, h2, h3, h4, h5,
      show 0 ≤ sim.states.soil_nutrient + 30 by linarith,
      le_max_left 0 _, h8, h9⟩, hb, ht, hp, hh⟩

lemma handleSpringOperations_mid {sim : Sim} (h : MidInv sim.states) :
    MidInv (handleSpringOperations sim).states := by
  obtain ⟨⟨h1, h2, h3, h4, h5, h6, h7, h8, h9⟩, hb, ht, hp, hh⟩ := h
  have h' : MidInv (Sim.mk sim.scenario sim.year { sim.states with crop := 80 } sim.history).states :=
    ⟨⟨by norm_num, h2, h3, h4, h5, h6, h7, h8, h9⟩, hb, ht, hp, hh⟩
  simp only [handleSpringOperations]
  split_ifs with hf
  · exact applyFertilizer_mid h'
  · exact h'

lemma applyChemical_mid (c : Chem) {sim : Sim} (h : MidInv sim.states) :
    MidInv (applyChemical c sim).states := by
  obtain ⟨⟨h1, h2, h3, h4, h5, h6, h7, h8, h9⟩, hb, ht, hp, hh⟩ := h
  have e1 : (1 : ℚ) - chemEffect .pesticide = 0.4 := by norm_num [chemEffect]
  have e2 : (1 : ℚ) - predatorPesticideMortality = 0.7 := by
    norm_num [predatorPesticideMortality]
  have e3 : (1 : ℚ) - chemEffect .herbicide = 0.3 := by norm_num [chemEffect]
  cases c
  · refine ⟨⟨h1, h2, ?_, ?_, ?_, h6, h7, h8, ?_⟩, ?_, ?_, ?_, hh⟩
    · show 0 ≤ sim.states.pest * (1 - chemEffect .pesticide)
      rw [e1]; positivity
    · show 0 ≤ sim.states.bird * (1 - predatorPesticideMortality)
      rw [e2]; positivity
    · show 0 ≤ sim.states.bat * (1 - predatorPesticideMortality)
      rw [e2]; positivity
    · show (0 : ℚ) ≤ 50
      norm_num
    · show sim.states.bird * (1 - predatorPesticideMortality) ≤ 21
      rw [e2]; nlinarith
    · show sim.states.bat * (1 - predatorPesticideMortality) ≤ 16
      rw [e2]; nlinarith
    · show (50 : ℚ) ≤ 50
      norm_num
  · refine ⟨⟨h1, ?_, h3, h4, h5, h6, h7, ?_, h9⟩, hb, ht, hp, ?_⟩
    · show 0 ≤ sim.states.weed * (1 - chemEffect .herbicide)
      rw [e3]; positivity
    · show (0 : ℚ) ≤ 40
      norm_num
    · show (40 : ℚ) ≤ 40
      norm_num

/-- The weed value produced by the three organic stages before clamping:
the mechanical factor (when weed > 20), the cover-crop factor (when
enabled), then the crop-density factor. -/
def organicWeedValue (sim : Sim) : ℚ :=
  (if 20 < sim.states.weed then sim.states.weed * (1 - mechEfficiency sim.year)
   else sim.states.weed) *
  (if sim.scenario.use_cover_crop then 0.8 else 1) *
  (1 - min 0.3 (sim.states.crop * 0.001))

/-- Closed form of the organic-weed-control state: the weed level passes
through the mechanical, cover-crop and crop-density factors in order and is
clamped at 0; nothing else changes. -/
lemma applyOrganicWeedControl_states (sim : Sim) :
    (applyOrganicWeedControl sim).states =
      { sim.states with weed := max 0 (organicWeedValue sim) } := by
  unfold applyOrganicWeedControl organicWeedValue
  by_cases hw : 20 < sim.states.weed <;>
    by_cases hc : sim.scenario.use_cover_crop = true <;>
      simp [hw, hc]

lemma applyOrganicWeedControl_mid {sim : Sim} (h : MidInv sim.states) :
    MidInv (applyOrganicWeedControl sim).states := by
  obtain ⟨⟨h1, h2, h3, h4, h5, h6, h7, h8, h9⟩, hb, ht, hp, hh⟩ := h
  rw [applyOrganicWeedControl_states]
  exact ⟨⟨h1, le_max_left 0 _, h3, h4, h5, h6, h7, h8, h9⟩, hb, ht, hp, hh⟩

lemma handleSummerOperations_mid {sim : Sim} (h : MidInv sim.states) :
    MidInv (handleSummerOperations sim).states := by
  simp only [handleSummerOperations]
  split_ifs
  · exact applyChemical_mid _ (applyChemical_mid _ h)
  · exact applyOrganicWeedControl_mid (applyChemical_mid _ h)
  · exact applyChemical_mid _ h
  · exact applyOrganicWeedControl_mid h

lemma seasonalOperations_mid (s : Season) {sim : Sim} (h : MidInv sim.states) :
    MidInv (seasonalOperations s sim).states := by
  cases s
  · exact handleSpringOperations_mid h
  · exact handleSummerOperations_mid h
  · exact h
  · exact h

lemma updatePredatorPopulation_mid (p : Predator) {sim : Sim} (h : MidInv sim.states) :
    MidInv (updatePredatorPopulation p sim).states := by
  obtain ⟨⟨h1, h2, h3, h4, h5, h6, h7, h8, h9⟩, hb, ht, hp, hh⟩ := h
  have hpe0 : 0 ≤ min 0.3 (sim.states.pest / 100) :=
    le_min (by norm_num) (div_nonneg h3 (by norm_num))
  have hpe : min 0.3 (sim.states.pest / 100) ≤ 0.3 := min_le_left _ _
  unfold updatePredatorPopulation
  cases p
  · split_ifs with hz
    · exact ⟨⟨h1, h2, h3, show (0:ℚ) ≤ 2 by norm_num, h5, h6, h7, h8, h9⟩,
        show (2:ℚ) ≤ 21 by norm_num, ht, hp, hh⟩
    · refine ⟨⟨h1, h2, h3, ?_, h5, h6, h7, h8, h9⟩, ?_, ht, hp, hh⟩
      · show 0 ≤ sim.states.bird + predatorR .bird * sim.states.bird *
          (1 - sim.states.bird / predatorK .bird) * (1 + min 0.3 (sim.states.pest / 100)) * 0.5
        exact birdStep_nonneg h4 hb (by linarith) (by linarith) (by norm_num) (by norm_num)
      · show sim.states.bird + predatorR .bird * sim.states.bird *
          (1 - sim.states.bird / predatorK .bird) * (1 + min 0.3 (sim.states.pest / 100)) * 0.5 ≤ 21
        exact birdStep_le h4 hb (by linarith) (by linarith) (by norm_num) (by norm_num)
  · split_ifs with hz
    · exact ⟨⟨h1, h2, h3, h4, show (0:ℚ) ≤ 1.5 by norm_num, h6, h7, h8, h9⟩,
        hb, show (1.5:ℚ) ≤ 16 by norm_num, hp, hh⟩
    · refine ⟨⟨h1, h2, h3, h4, ?_, h6, h7, h8, h9⟩, hb, ?_, hp, hh⟩
      · show 0 ≤ sim.states.bat + predatorR .bat * sim.states.bat *
          (1 - sim.states.bat / predatorK .bat) * (1 + min 0.3 (sim.states.pest / 100)) * 0.5
        exact batStep_nonneg h5 ht (by linarith) (by linarith) (by norm_num) (by norm_num)
      · show sim.states.bat + predatorR .bat * sim.states.bat *
          (1 - sim.states.bat / predatorK .bat) * (1 + min 0.3 (sim.states.pest / 100)) * 0.5 ≤ 16
        exact batStep_le h5 ht (by linarith) (by linarith) (by norm_num) (by norm_num)

lemma handlePredatorRecovery_mid {sim : Sim} (h : MidInv sim.states) :
    MidInv (handlePredatorRecovery sim).states := by
  simp only [handlePredatorRecovery, updatePredatorPopulation_scenario]
  split_ifs
  · exact updatePredatorPopulation_mid _ (updatePredatorPopulation_mid _ h)
  · exact updatePredatorPopulation_mid _ h
  · exact updatePredatorPopulation_mid _ h
  · exact h

lemma calculateGrowthRates_snd_states_crop (season : Season) (sim : Sim) :
    (calculateGrowthRates season sim).2.states.crop = sim.states.crop := by
  rw [calculateGrowthRates_snd]; split_ifs <;> rfl

lemma calculateGrowthRates_snd_states_pest (season : Season) (sim : Sim) :
    (calculateGrowthRates season sim).2.states.pest = sim.states.pest := by
  rw [calculateGrowthRates_snd]; split_ifs <;> rfl

lemma calculateGrowthRates_snd_states_bird (season : Season) (sim : Sim) :
    (calculateGrowthRates season sim).2.states.bird = sim.states.bird := by
  rw [calculateGrowthRates_snd]; split_ifs <;> rfl

lemma calculateGrowthRates_snd_states_bat (season : Season) (sim : Sim) :
    (calculateGrowthRates season sim).2.states.bat = sim.states.bat := by
  rw [calculateGrowthRates_snd]; split_ifs <;> rfl

lemma calculateGrowthRates_snd_states_soil_nutrient (season : Season) (sim : Sim) :
    (calculateGrowthRates season sim).2.states.soil_nutrient = sim.states.soil_nutrient := by
  rw [calculateGrowthRates_snd]; split_ifs <;> rfl

lemma calculateGrowthRates_snd_states_soil_health (season : Season) (sim : Sim) :
    (calculateGrowthRates season sim).2.states.soil_health = sim.states.soil_health := by
  rw [calculateGrowthRates_snd]; split_ifs <;> rfl

lemma calculateGrowthRates_snd_states_herbicide (season : Season) (sim : Sim) :
    (calculateGrowthRates season sim).2.states.herbicide_residue =
      sim.states.herbicide_residue := by
  rw [calculateGrowthRates_snd]; split_ifs <;> rfl

lemma calculateGrowthRates_snd_states_pesticide (season : Season) (sim : Sim) :
    (calculateGrowthRates season sim).2.states.pesticide_residue =
      sim.states.pesticide_residue := by
  rw [calculateGrowthRates_snd]; split_ifs <;> rfl

/-- The weed component of the growth-rate side effect: multiplied by the
bird seed-predation factor exactly when birds are present. -/
lemma calculateGrowthRates_snd_states_weed (season : Season) (sim : Sim) :
    (calculateGrowthRates season sim).2.states.weed =
      if 0 < sim.states.bird then sim.states.weed * birdSeedFactor sim.states.bird
      else sim.states.weed := by
  rw [calculateGrowthRates_snd]; split_ifs <;> rfl

lemma calculateGrowthRates_fst_bird (season : Season) (sim : Sim) :
    (calculateGrowthRates season sim).1.bird =
      (if 0 < sim.states.bird then
        calculateBirdGrowth sim.states.bird sim.states.pest else 0) *
        seasonFactor season := rfl

lemma calculateGrowthRates_fst_bat (season : Season) (sim : Sim) :
    (calculateGrowthRates season sim).1.bat =
      (if 0 < sim.states.bat then
        calculateBatGrowth sim.states.bat sim.states.pest else 0) *
        seasonFactor season := rfl

lemma calculateGrowthRates_fst_crop (season : Season) (sim : Sim) :
    (calculateGrowthRates season sim).1.crop =
      calculateCropGrowth sim sim.states.crop sim.states.weed sim.states.pest *
        seasonFactor season := rfl

lemma calculateGrowthRates_fst_weed (season : Season) (sim : Sim) :
    (calculateGrowthRates season sim).1.weed =
      calculateWeedGrowth sim sim.states.weed sim.states.crop * seasonFactor season := rfl

lemma calculateGrowthRates_fst_pest (season : Season) (sim : Sim) :
    (calculateGrowthRates season sim).1.pest =
      calculatePestGrowth sim sim.states.pest sim.states.bird sim.states.bat *
        seasonFactor season := rfl

/-- The five clamped growth applications of `update_populations`, before
predator recovery. -/
def popCore (season : Season) (sim : Sim) : Sim :=
  let pr := calculateGrowthRates season sim
  let rates := pr.1
  let sim1 := pr.2
  let st := sim1.states
  { sim1 with states := { st with
      crop := max 0 (st.crop + rates.crop),
      weed := max 0 (st.weed + rates.weed),
      pest := max 0 (st.pest + rates.pest),
      bird := max 0 (st.bird + rates.bird),
      bat := max 0 (st.bat + rates.bat) } }

/-- `update_populations` is the clamped growth application followed by
predator recovery. -/
lemma updatePopulations_eq (season : Season) (sim : Sim) :
    updatePopulations season sim = handlePredatorRecovery (popCore season sim) := rfl

lemma popCore_scenario (season : Season) (sim : Sim) :
    (popCore season sim).scenario = sim.scenario := by
  simp only [popCore]
  exact calculateGrowthRates_snd_scenario season sim

lemma popCore_bird (season : Season) (sim : Sim) :
    (popCore season sim).states.bird =
      max 0 ((calculateGrowthRates season sim).2.states.bird +
        (calculateGrowthRates season sim).1.bird) := rfl

lemma popCore_mid (season : Season) {sim : Sim} (h : MidInv sim.states) :
    MidInv (popCore season sim).states := by
  obtain ⟨⟨h1, h2, h3, h4, h5, h6, h7, h8, h9⟩, hb, ht, hp, hh⟩ := h
  have hkeyBird : (calculateGrowthRates season sim).2.states.bird +
      (calculateGrowthRates season sim).1.bird ≤ 21 := by
    rw [calculateGrowthRates_snd_states_bird, calculateGrowthRates_fst_bird]
    split_ifs with hz
    · have hm0 : 0 ≤ min 0.2 (sim.states.pest / 50) :=
        le_min (by norm_num) (div_nonneg h3 (by norm_num))
      have hm2 : min 0.2 (sim.states.pest / 50) ≤ 0.2 := min_le_left _ _
      show sim.states.bird + 0.1 * sim.states.bird * (1 - sim.states.bird / 20) *
        (1 + 0.5 * min 0.2 (sim.states.pest / 50)) * seasonFactor season ≤ 21
      exact birdStep_le h4 hb (by linarith) (by linarith)
        (seasonFactor_nonneg season) (seasonFactor_le season)
    · simpa using hb
  have hkeyBat : (calculateGrowthRates season sim).2.states.bat +
      (calculateGrowthRates season sim).1.bat ≤ 16 := by
    rw [calculateGrowthRates_snd_states_bat, calculateGrowthRates_fst_bat]
    split_ifs with hz
    · have hm0 : 0 ≤ min 0.2 (sim.states.pest / 50) :=
        le_min (by norm_num) (div_nonneg h3 (by norm_num))
      have hm2 : min 0.2 (sim.states.pest / 50) ≤ 0.2 := min_le_left _ _
      show sim.states.bat + 0.08 * sim.states.bat * (1 - sim.states.bat / 15) *
        (1 + 0.4 * min 0.2 (sim.states.pest / 50)) * seasonFactor season ≤ 16
      exact batStep_le h5 ht (by linarith) (by linarith)
        (seasonFactor_nonneg season) (seasonFactor_le season)
    · simpa using ht
  simp only [popCore]
  refine ⟨⟨le_max_left 0 _, le_max_left 0 _, le_max_left 0 _, le_max_left 0 _,
    le_max_left 0 _, ?_, ?_, ?_, ?_⟩, ?_, ?_, ?_, ?_⟩
  · show 0 ≤ (calculateGrowthRates season sim).2.states.soil_nutrient
    rw [calculateGrowthRates_snd_states_soil_nutrient]; exact h6
  · show 0 ≤ (calculateGrowthRates season sim).2.states.soil_health
    rw [calculateGrowthRates_snd_states_soil_health]; exact h7
  · show 0 ≤ (calculateGrowthRates season sim).2.states.herbicide_residue
    rw [calculateGrowthRates_snd_states_herbicide]; exact h8
  · show 0 ≤ (calculateGrowthRates season sim).2.states.pesticide_residue
    rw [calculateGrowthRates_snd_states_pesticide]; exact h9
  · show max 0 ((calculateGrowthRates season sim).2.states.bird +
      (calculateGrowthRates season sim).1.bird) ≤ 21
    exact max_le (by norm_num) hkeyBird
  · show max 0 ((calculateGrowthRates season sim).2.states.bat +
      (calculateGrowthRates season sim).1.bat) ≤ 16
    exact max_le (by norm_num) hkeyBat
  · show (calculateGrowthRates season sim).2.states.pesticide_residue ≤ 50
    rw [calculateGrowthRates_snd_states_pesticide]; exact hp
  · show (calculateGrowthRates season sim).2.states.herbicide_residue ≤ 40
    rw [calculateGrowthRates_snd_states_herbicide]; exact hh

lemma updatePopulations_mid (season : Season) {sim : Sim} (h : MidInv sim.states) :
    MidInv (updatePopulations season sim).states := by
  rw [updatePopulations_eq]
  exact handlePredatorRecovery_mid (popCore_mid season h)

/-- One season step carries the end-of-step invariant to the next step. -/
lemma stepSeason_inv (season : Season) {sim : Sim} (h : StepInv sim.states) :
    StepInv (stepSeason season sim).states := by
  have h1 : MidInv (seasonalOperations season sim).states :=
    seasonalOperations_mid season h.toMid
  have h2 : MidInv (updatePopulations season (seasonalOperations season sim)).states :=
    updatePopulations_mid season h1
  obtain ⟨⟨g1, g2, g3, g4, g5, g6, g7, g8, g9⟩, gb, gt, gp, gh⟩ := h2
  unfold stepSeason
  rw [recordState_states]
  refine ⟨⟨g1, g2, g3, g4, g5, ?_, g7, ?_, ?_⟩, gb, gt, ?_, ?_⟩
  · show 0 ≤ (updatePopulations season (seasonalOperations season sim)).states.soil_nutrient * 0.9
    positivity
  · show 0 ≤ (updatePopulations season (seasonalOperations season sim)).states.herbicide_residue * (1 - 0.3)
    nlinarith
  · show 0 ≤ (updatePopulations season (seasonalOperations season sim)).states.pesticide_residue * (1 - 0.25)
    nlinarith
  · show (updatePopulations season (seasonalOperations season sim)).states.pesticide_residue * (1 - 0.25) ≤ 37.5
    nlinarith
  · show (updatePopulations season (seasonalOperations season sim)).states.herbicide_residue * (1 - 0.3) ≤ 28
    nlinarith

/-- The driver invariant: the current state and every recorded snapshot
satisfy the end-of-step invariant. -/
def SimInv (sim : Sim) : Prop :=
  StepInv sim.states ∧ ∀ snap ∈ sim.history, StepInv snap.state

lemma stepSeason_simInv (season : Season) {sim : Sim} (h : SimInv sim) :
    SimInv (stepSeason season sim) := by
  obtain ⟨hs, hh⟩ := h
  have hs' : StepInv (stepSeason season sim).states := stepSeason_inv season hs
  refine ⟨hs', ?_⟩
  intro snap hsnap
  rw [stepSeason_history] at hsnap
  rcases List.mem_append.1 hsnap with hmem | hmem
  · exact hh snap hmem
  · rw [List.mem_singleton.1 hmem]
    exact hs'

lemma simulateYear_simInv {sim : Sim} (h : SimInv sim) : SimInv (simulateYear sim) := by
  unfold simulateYear seasonOrder
  simp only [List.foldl_cons, List.foldl_nil]
  have h4 := stepSeason_simInv .winter (stepSeason_simInv .autumn
    (stepSeason_simInv .summer (stepSeason_simInv .spring h)))
  exact ⟨h4.1, h4.2⟩

lemma mkSim_simInv (sc : Scenario) : SimInv (mkSim sc) := by
  constructor
  · refine ⟨⟨?_, ?_, ?_, ?_, ?_, ?_, ?_, ?_, ?_⟩, ?_, ?_, ?_, ?_⟩ <;> norm_num [mkSim, initialStates]
  · intro snap hsnap
    simp [mkSim] at hsnap

lemma simYears_simInv (sc : Scenario) (n : ℕ) : SimInv (simYears sc n) := by
  induction n with
  | zero => exact mkSim_simInv sc
  | succ k ih => exact simulateYear_simInv ih

/-! ### Bird persistence: once positive, the bird population stays positive -/

lemma applyFertilizer_bird (sim : Sim) :
    (applyFertilizer sim).states.bird = sim.states.bird := by
  unfold applyFertilizer; split_ifs <;> rfl

lemma handleSpringOperations_bird (sim : Sim) :
    (handleSpringOperations sim).states.bird = sim.states.bird := by
  simp only [handleSpringOperations]
  split_ifs
  · rw [applyFertilizer_bird]
  · rfl

lemma applyChemical_herbicide_bird (sim : Sim) :
    (applyChemical .herbicide sim).states.bird = sim.states.bird := rfl

lemma applyChemical_pesticide_bird (sim : Sim) :
    (applyChemical .pesticide sim).states.bird =
      sim.states.bird * (1 - predatorPesticideMortality) := rfl

lemma applyOrganicWeedControl_bird (sim : Sim) :
    (applyOrganicWeedControl sim).states.bird = sim.states.bird := by
  rw [applyOrganicWeedControl_states]

lemma applyChemical_pesticide_birdPos {sim : Sim} (h : 0 < sim.states.bird) :
    0 < (applyChemical .pesticide sim).states.bird := by
  rw [applyChemical_pesticide_bird]
  have e2 : (1 : ℚ) - predatorPesticideMortality = 0.7 := by
    norm_num [predatorPesticideMortality]
  rw [e2]
  exact mul_pos h (by norm_num)

lemma handleSummerOperations_birdPos {sim : Sim} (h : 0 < sim.states.bird) :
    0 < (handleSummerOperations sim).states.bird := by
  simp only [handleSummerOperations]
  split_ifs
  · rw [applyChemical_herbicide_bird]
    exact applyChemical_pesticide_birdPos h
  · rw [applyOrganicWeedControl_bird]
    exact applyChemical_pesticide_birdPos h
  · rw [applyChemical_herbicide_bird]
    exact h
  · rw [applyOrganicWeedControl_bird]
    exact h

lemma seasonalOperations_birdPos (s : Season) {sim : Sim} (h : 0 < sim.states.bird) :
    0 < (seasonalOperations s sim).states.bird := by
  cases s
  · rw [show (seasonalOperations .spring sim) = handleSpringOperations sim from rfl,
      handleSpringOperations_bird]
    exact h
  · exact handleSummerOperations_birdPos h
  · exact h
  · exact h

lemma popCore_birdPos (season : Season) {sim : Sim} (h : MidInv sim.states)
    (hpos : 0 < sim.states.bird) : 0 < (popCore season sim).states.bird := by
  obtain ⟨⟨h1, h2, h3, h4, h5, h6, h7, h8, h9⟩, hb, ht, hp, hh⟩ := h
  rw [popCore_bird, calculateGrowthRates_snd_states_bird, calculateGrowthRates_fst_bird,
    if_pos hpos]
  refine lt_max_iff.2 (Or.inr ?_)
  have hm0 : 0 ≤ min 0.2 (sim.states.pest / 50) :=
    le_min (by norm_num) (div_nonneg h3 (by norm_num))
  have hm2 : min 0.2 (sim.states.pest / 50) ≤ 0.2 := min_le_left _ _
  show 0 < sim.states.bird + 0.1 * sim.states.bird * (1 - sim.states.bird / 20) *
    (1 + 0.5 * min 0.2 (sim.states.pest / 50)) * seasonFactor season
  exact birdStep_pos hpos hb (by linarith) (by linarith)
    (seasonFactor_nonneg season) (seasonFactor_le season)

lemma updatePredatorPopulation_bat_bird (sim : Sim) :
    (updatePredatorPopulation .bat sim).states.bird = sim.states.bird := by
  unfold updatePredatorPopulation; split_ifs <;> rfl

lemma updatePredatorPopulation_birdPos {sim : Sim} (h : MidInv sim.states)
    (hpos : 0 < sim.states.bird) :
    0 < (updatePredatorPopulation .bird sim).states.bird := by
  obtain ⟨⟨h1, h2, h3, h4, h5, h6, h7, h8, h9⟩, hb, ht, hp, hh⟩ := h
  unfold updatePredatorPopulation
  split_ifs with hz
  · exact absurd (show sim.states.bird = 0 from hz) (ne_of_gt hpos)
  · have hpe0 : 0 ≤ min 0.3 (sim.states.pest / 100) :=
      le_min (by norm_num) (div_nonneg h3 (by norm_num))
    have hpe : min 0.3 (sim.states.pest / 100) ≤ 0.3 := min_le_left _ _
    show 0 < sim.states.bird + predatorR .bird * sim.states.bird *
      (1 - sim.states.bird / predatorK .bird) * (1 + min 0.3 (sim.states.pest / 100)) * 0.5
    exact birdStep_pos hpos hb (by linarith) (by linarith) (by norm_num) (by norm_num)

lemma handlePredatorRecovery_birdPos {sim : Sim} (h : MidInv sim.states)
    (hpos : 0 < sim.states.bird) :
    0 < (handlePredatorRecovery sim).states.bird := by
  simp only [handlePredatorRecovery, updatePredatorPopulation_scenario]
  split_ifs
  · rw [updatePredatorPopulation_bat_bird]
    exact updatePredatorPopulation_birdPos h hpos
  · exact updatePredatorPopulation_birdPos h hpos
  · rw [updatePredatorPopulation_bat_bird]
    exact hpos
  · exact hpos

lemma updatePopulations_birdPos (season : Season) {sim : Sim} (h : MidInv sim.states)
    (hpos : 0 < sim.states.bird) : 0 < (updatePopulations season sim).states.bird := by
  rw [updatePopulations_eq]
  exact handlePredatorRecovery_birdPos (popCore_mid season h) (popCore_birdPos season h hpos)

lemma updateChemicals_bird (sim : Sim) :
    (updateChemicals sim).states.bird = sim.states.bird := rfl

lemma stepSeason_birdPos (season : Season) {sim : Sim} (h : StepInv sim.states)
    (hpos : 0 < sim.states.bird) : 0 < (stepSeason season sim).states.bird := by
  have h1 := seasonalOperations_mid season h.toMid
  have hp1 := seasonalOperations_birdPos season hpos
  have hp2 := updatePopulations_birdPos season h1 hp1
  unfold stepSeason
  rw [recordState_states, updateChemicals_bird]
  exact hp2

/-- When the bird population is exactly 0, the predator update seeds it
at the fixed value 2. -/
lemma updatePredatorPopulation_bird_seed {sim : Sim} (hz : sim.states.bird = 0) :
    (updatePredatorPopulation .bird sim).states.bird = 2 := by
  unfold updatePredatorPopulation
  rw [if_pos (show getPredator sim.states .bird = 0 from hz)]
  rfl

lemma handlePredatorRecovery_seeds_bird {sim : Sim}
    (hflag : sim.scenario.introduce_birds = true) (hz : sim.states.bird = 0) :
    (handlePredatorRecovery sim).states.bird = 2 := by
  simp only [handlePredatorRecovery, updatePredatorPopulation_scenario]
  split_ifs with hb hbat
  · rw [updatePredatorPopulation_bat_bird]
    exact updatePredatorPopulation_bird_seed hz
  · exact updatePredatorPopulation_bird_seed hz
  · exact absurd hflag hb
  · exact absurd hflag hb

/-- The very first season step of a fresh simulation with bird introduction
enabled seeds the bird population at exactly 2. -/
lemma stepSeason_spring_mkSim_bird (sc : Scenario) (hflag : sc.introduce_birds = true) :
    (stepSeason .spring (mkSim sc)).states.bird = 2 := by
  unfold stepSeason
  rw [recordState_states, updateChemicals_bird, updatePopulations_eq]
  apply handlePredatorRecovery_seeds_bird
  · rw [popCore_scenario, seasonalOperations_scenario]
    exact hflag
  · rw [popCore_bird, calculateGrowthRates_snd_states_bird, calculateGrowthRates_fst_bird]
    have hz : (seasonalOperations .spring (mkSim sc)).states.bird = 0 := by
      rw [show seasonalOperations .spring (mkSim sc) = handleSpringOperations (mkSim sc) from rfl,
        handleSpringOperations_bird]
      rfl
    rw [hz]
    simp

/-- Invariant for introduced birds: simulator invariant, positive current
bird level and positive bird level in every snapshot. -/
def BirdInv (sim : Sim) : Prop :=
  SimInv sim ∧ 0 < sim.states.bird ∧ ∀ snap ∈ sim.history, 0 < snap.state.bird

lemma stepSeason_birdInv (season : Season) {sim : Sim} (h : BirdInv sim) :
    BirdInv (stepSeason season sim) := by
  obtain ⟨hsi, hpos, hhist⟩ := h
  refine ⟨stepSeason_simInv season hsi, stepSeason_birdPos season hsi.1 hpos, ?_⟩
  intro snap hsnap
  rw [stepSeason_history] at hsnap
  rcases List.mem_append.1 hsnap with hm | hm
  · exact hhist snap hm
  · rw [List.mem_singleton.1 hm]
    exact stepSeason_birdPos season hsi.1 hpos

lemma simulateYear_birdInv {sim : Sim} (h : BirdInv sim) : BirdInv (simulateYear sim) := by
  unfold simulateYear seasonOrder
  simp only [List.foldl_cons, List.foldl_nil]
  have h4 := stepSeason_birdInv .winter (stepSeason_birdInv .autumn
    (stepSeason_birdInv .summer (stepSeason_birdInv .spring h)))
  exact ⟨⟨h4.1.1, h4.1.2⟩, h4.2.1, h4.2.2⟩

lemma birdInv_after_first (sc : Scenario) (hflag : sc.introduce_birds = true) :
    BirdInv (stepSeason .spring (mkSim sc)) := by
  have h2 : (stepSeason .spring (mkSim sc)).states.bird = 2 :=
    stepSeason_spring_mkSim_bird sc hflag
  refine ⟨stepSeason_simInv .spring (mkSim_simInv sc), by rw [h2]; norm_num, ?_⟩
  intro snap hsnap
  rw [stepSeason_history] at hsnap
  simp only [show (mkSim sc).history = [] from rfl, List.nil_append,
    List.mem_singleton] at hsnap
  rw [hsnap]
  show 0 < (stepSeason .spring (mkSim sc)).states.bird
  rw [h2]; norm_num

lemma simulateYear_mkSim_birdInv (sc : Scenario) (hflag : sc.introduce_birds = true) :
    BirdInv (simulateYear (mkSim sc)) := by
  unfold simulateYear seasonOrder
  simp only [List.foldl_cons, List.foldl_nil]
  have h4 := stepSeason_birdInv .winter (stepSeason_birdInv .autumn
    (stepSeason_birdInv .summer (birdInv_after_first sc hflag)))
  exact ⟨⟨h4.1.1, h4.1.2⟩, h4.2.1, h4.2.2⟩

lemma simYears_birdInv (sc : Scenario) (hflag : sc.introduce_birds = true) :
    ∀ n : ℕ, 1 ≤ n → BirdInv (simYears sc n) := by
  intro n hn
  induction n with
  | zero => omega
  | succ k ih =>
    rcases Nat.eq_zero_or_pos k with hk | hk
    · subst hk
      exact simulateYear_mkSim_birdInv sc hflag
    · exact simulateYear_birdInv (ih hk)

/-! ### History structure -/

/-- The season labels produced by `n` full years: the four-season order
repeated `n` times. -/
def seasonCycle : ℕ → List Season
  | 0 => []
  | n + 1 => seasonCycle n ++ seasonOrder

/-- The year labels produced by `n` full years: each year index repeated
four times, in order. -/
def yearLabels : ℕ → List ℕ
  | 0 => []
  | n + 1 => yearLabels n ++ List.replicate 4 n

/-- One `simulate_year` appends exactly four snapshots, labelled with the
pre-increment year and the seasons in fixed order. -/
lemma simulateYear_history (sim : Sim) :
    (simulateYear sim).history = sim.history ++
      [⟨(stepSeason .spring sim).states, sim.year, .spring⟩,
       ⟨(stepSeason .summer (stepSeason .spring sim)).states, sim.year, .summer⟩,
       ⟨(stepSeason .autumn (stepSeason .summer (stepSeason .spring sim))).states,
         sim.year, .autumn⟩,
       ⟨(stepSeason .winter (stepSeason .autumn (stepSeason .summer
           (stepSeason .spring sim)))).states, sim.year, .winter⟩] := by
  unfold simulateYear seasonOrder
  simp only [List.foldl_cons, List.foldl_nil]
  show (stepSeason .winter (stepSeason .autumn (stepSeason .summer
    (stepSeason .spring sim)))).history = _
  rw [stepSeason_history, stepSeason_history, stepSeason_history, stepSeason_history]
  simp [List.append_assoc]

lemma simulateYear_year (sim : Sim) : (simulateYear sim).year = sim.year + 1 := by
  unfold simulateYear seasonOrder
  simp only [List.foldl_cons, List.foldl_nil]
  simp

lemma simYears_year (sc : Scenario) (n : ℕ) : (simYears sc n).year = n := by
  induction n with
  | zero => rfl
  | succ k ih => rw [show simYears sc (k + 1) = simulateYear (simYears sc k) from rfl,
      simulateYear_year, ih]

lemma simYears_history_seasons (sc : Scenario) (n : ℕ) :
    (simYears sc n).history.map Snapshot.season = seasonCycle n := by
  induction n with
  | zero => rfl
  | succ k ih =>
    rw [show simYears sc (k + 1) = simulateYear (simYears sc k) from rfl,
      simulateYear_history]
    simp [seasonCycle, seasonOrder, ih]

lemma simYears_history_years (sc : Scenario) (n : ℕ) :
    (simYears sc n).history.map Snapshot.year = yearLabels n := by
  induction n with
  | zero => rfl
  | succ k ih =>
    rw [show simYears sc (k + 1) = simulateYear (simYears sc k) from rfl,
      simulateYear_history]
    simp [yearLabels, ih, simYears_year, List.replicate]

lemma simYears_history_length (sc : Scenario) (n : ℕ) :
    (simYears sc n).history.length = 4 * n := by
  induction n with
  | zero => rfl
  | succ k ih =>
    rw [show simYears sc (k + 1) = simulateYear (simYears sc k) from rfl,
      simulateYear_history]
    simp [ih]
    ring

/-! ### Summer decomposition and spec-stage refinement -/

/-- The weed-control half of `handle_summer_operations`: herbicide when
eligible, otherwise organic control. -/
def summerWeedPhase (sim : Sim) : Sim :=
  if shouldApplyChemical .herbicide sim then applyChemical .herbicide sim
  else applyOrganicWeedControl sim

/-- `handle_summer_operations` is the optional pesticide application
followed by the weed-control phase. -/
lemma handleSummerOperations_eq (sim : Sim) :
    handleSummerOperations sim =
      summerWeedPhase
        (if shouldApplyChemical .pesticide sim then applyChemical .pesticide sim else sim) :=
  rfl

lemma summerWeedPhase_pest (sim : Sim) :
    (summerWeedPhase sim).states.pest = sim.states.pest := by
  unfold summerWeedPhase
  split_ifs
  · rfl
  · rw [applyOrganicWeedControl_states]

lemma summerWeedPhase_bird (sim : Sim) :
    (summerWeedPhase sim).states.bird = sim.states.bird := by
  unfold summerWeedPhase
  split_ifs
  · rfl
  · rw [applyOrganicWeedControl_states]

lemma summerWeedPhase_bat (sim : Sim) :
    (summerWeedPhase sim).states.bat = sim.states.bat := by
  unfold summerWeedPhase
  split_ifs
  · rfl
  · rw [applyOrganicWeedControl_states]

lemma summerWeedPhase_pesticide_residue (sim : Sim) :
    (summerWeedPhase sim).states.pesticide_residue = sim.states.pesticide_residue := by
  unfold summerWeedPhase
  split_ifs
  · rfl
  · rw [applyOrganicWeedControl_states]

/-- Spec-stage decomposition, stage (a): mechanical weeding when weed > 20,
with the year-ramped efficiency. -/
def specMechanicalWeeding (sim : Sim) : Sim :=
  if 20 < sim.states.weed then
    { sim with states :=
        { sim.states with weed := sim.states.weed * (1 - mechEfficiency sim.year) } }
  else sim

/-- Spec-stage decomposition, stage (b): cover-crop competition multiplies
weed by 0.8 when the flag is set. -/
def specCoverCrop (sim : Sim) : Sim :=
  if sim.scenario.use_cover_crop then
    { sim with states := { sim.states with weed := sim.states.weed * 0.8 } }
  else sim

/-- Spec-stage decomposition, stage (c): crop-density suppression. -/
def specCropDensity (sim : Sim) : Sim :=
  { sim with states :=
      { sim.states with weed := sim.states.weed * (1 - min 0.3 (sim.states.crop * 0.001)) } }

/-- Spec-stage decomposition, final clamp of weed at 0. -/
def specWeedClamp (sim : Sim) : Sim :=
  { sim with states := { sim.states with weed := max 0 sim.states.weed } }

/-- The monolithic organic weed control equals the four spec stages applied
in the fixed order (a), (b), (c), clamp. -/
lemma applyOrganicWeedControl_staged (s : Sim) :
    applyOrganicWeedControl s =
      specWeedClamp (specCropDensity (specCoverCrop (specMechanicalWeeding s))) := by
  by_cases hw : 20 < s.states.weed <;> by_cases hc : s.scenario.use_cover_crop = true <;>
    unfold applyOrganicWeedControl specWeedClamp specCropDensity specCoverCrop
      specMechanicalWeeding <;>
    simp [hw, hc]

/-! ### Concrete inputs used by the witnesses and counterexamples -/

/-- A pesticide-only scenario with no stop year. -/
def scenarioA : Scenario :=
  { use_fertilizer := false, use_organic_fertilizer := false,
    use_herbicide := false, use_pesticide := true, use_cover_crop := false,
    introduce_birds := false, introduce_bats := false,
    herbicide_stop_year := none, pesticide_stop_year := none }

/-- A fresh pesticide-only simulation with the pest level raised above the
application threshold. -/
def simA : Sim :=
  { scenario := scenarioA, year := 0,
    states := { initialStates with pest := 10 }, history := [] }

/-- An organic scenario with bird introduction. -/
def scenarioB : Scenario :=
  { use_fertilizer := true, use_organic_fertilizer := true,
    use_herbicide := false, use_pesticide := false, use_cover_crop := true,
    introduce_birds := true, introduce_bats := false,
    herbicide_stop_year := none, pesticide_stop_year := none }

/-- A year-8 simulation state with weed above the mechanical-weeding
threshold. -/
def simC : Sim :=
  { scenario := scenarioA, year := 8,
    states := { initialStates with weed := 30 }, history := [] }

/-- A herbicide-enabled scenario. -/
def scenarioD : Scenario :=
  { use_fertilizer := false, use_organic_fertilizer := false,
    use_herbicide := true, use_pesticide := false, use_cover_crop := false,
    introduce_birds := false, introduce_bats := false,
    herbicide_stop_year := none, pesticide_stop_year := none }

/-- Herbicide flag on, but weed below the 15 threshold: herbicide is not
eligible and the organic fallback must run. -/
def simD : Sim :=
  { scenario := scenarioD, year := 0,
    states := { initialStates with weed := 10 }, history := [] }

/-- A fresh organic simulation (used for the fertilizer witness). -/
def simE : Sim := mkSim scenarioB

/-! ### The claims -/

/-- C1: in a summer season step the pesticide is applied iff
`use_pesticide` is set, pest > 8, and no stop year is configured or the
current year is strictly below it; when applied, the residue is set to
exactly 50, pest is multiplied by (1 − 0.6), and bird and bat are each
multiplied by (1 − 0.3), all relative to the values immediately before the
application; when not applied, those four fields are untouched by the
summer operations. -/
theorem summer_pesticide_gate (sim : Sim) :
    (shouldApplyChemical .pesticide sim = true ↔
      (sim.scenario.use_pesticide = true ∧ 8 < sim.states.pest ∧
        (sim.scenario.pesticide_stop_year = none ∨
          ∃ y, sim.scenario.pesticide_stop_year = some y ∧ sim.year < y))) ∧
    (shouldApplyChemical .pesticide sim = true →
      handleSummerOperations sim = summerWeedPhase (applyChemical .pesticide sim) ∧
      (applyChemical .pesticide sim).states.pesticide_residue = 50 ∧
      (applyChemical .pesticide sim).states.pest = sim.states.pest * (1 - 0.6) ∧
      (applyChemical .pesticide sim).states.bird = sim.states.bird * (1 - 0.3) ∧
      (applyChemical .pesticide sim).states.bat = sim.states.bat * (1 - 0.3) ∧
      (handleSummerOperations sim).states.pesticide_residue = 50 ∧
      (handleSummerOperations sim).states.pest = sim.states.pest * (1 - 0.6) ∧
      (handleSummerOperations sim).states.bird = sim.states.bird * (1 - 0.3) ∧
      (handleSummerOperations sim).states.bat = sim.states.bat * (1 - 0.3)) ∧
    (shouldApplyChemical .pesticide sim = false →
      (handleSummerOperations sim).states.pesticide_residue = sim.states.pesticide_residue ∧
      (handleSummerOperations sim).states.pest = sim.states.pest ∧
      (handleSummerOperations sim).states.bird = sim.states.bird ∧
      (handleSummerOperations sim).states.bat = sim.states.bat) := by
  refine ⟨?_, ?_, ?_⟩
  · unfold shouldApplyChemical
    cases hstop : sim.scenario.pesticide_stop_year with
    | none =>
      simp [chemUseFlag, chemThreshold, chemStateLevel, chemStopYear, hstop,
        Bool.and_eq_true, decide_eq_true_iff]
    | some y =>
      simp [chemUseFlag, chemThreshold, chemStateLevel, chemStopYear, hstop,
        Bool.and_eq_true, decide_eq_true_iff, and_assoc]
  · intro h
    have he : handleSummerOperations sim = summerWeedPhase (applyChemical .pesticide sim) := by
      rw [handleSummerOperations_eq, if_pos h]
    refine ⟨he, rfl, rfl, rfl, rfl, ?_, ?_, ?_, ?_⟩
    · rw [he, summerWeedPhase_pesticide_residue]
      rfl
    · rw [he, summerWeedPhase_pest]
      rfl
    · rw [he, summerWeedPhase_bird]
      rfl
    · rw [he, summerWeedPhase_bat]
      rfl
  · intro h
    have he : handleSummerOperations sim = summerWeedPhase sim := by
      rw [handleSummerOperations_eq, if_neg (by rw [h]; exact fun hcc => Bool.noConfusion hcc)]
    rw [he, summerWeedPhase_pesticide_residue, summerWeedPhase_pest,
      summerWeedPhase_bird, summerWeedPhase_bat]
    exact ⟨rfl, rfl, rfl, rfl⟩

/-- Witness for C1 at a concrete eligible state. -/
theorem summer_pesticide_gate_witness :
    (handleSummerOperations simA).states.pesticide_residue = 50 ∧
    (handleSummerOperations simA).states.pest = simA.states.pest * (1 - 0.6) :=
  ⟨((summer_pesticide_gate simA).2.1 (by decide)).2.2.2.2.2.1,
   ((summer_pesticide_gate simA).2.1 (by decide)).2.2.2.2.2.2.1⟩

/-- C2 counterexample: at crop 150, weed 30, pest 60 the computed net crop
growth is the absolute floor 0.05, which is far below 0.05·base = 3, so the
claimed relative floor `net ≥ 0.05 · base` fails. -/
theorem crop_net_relative_floor_counterexample :
    ¬ (0.05 * cropBase 150 ≤ cropNet 150 30 60) := by
  have habs1 : |(-0.5 : ℚ)| = 0.5 := by rw [abs_neg]; exact abs_of_nonneg (by norm_num)
  have habs2 : |(-2 : ℚ)| = 2 := by rw [abs_neg]; exact abs_of_nonneg (by norm_num)
  have hbase : cropBase 150 = 60 := by unfold cropBase; norm_num
  have hpe : pestEffectOnCrop 60 = 0.6 := by
    unfold pestEffectOnCrop; rw [habs1]; norm_num
  have hwe : weedEffectOnCrop 30 = 0.5 := by
    unfold weedEffectOnCrop; rw [habs2]; norm_num
  have hnet : cropNet 150 30 60 = 0.05 := by
    unfold cropNet
    rw [hbase, hpe, hwe]
    norm_num
  rw [hnet, hbase]
  norm_num

/-- C2 amended: the floor in `calculate_crop_growth` is the absolute
constant 0.05, not 0.05 of the base: the net value is `max 0.05` of the
pest- and weed-discounted base, hence always at least 0.05 and at least the
discounted base, and equal to one of the two. -/
theorem crop_net_absolute_floor (C W P : ℚ) :
    0.05 ≤ cropNet C W P ∧
    cropBase C * (1 - pestEffectOnCrop P - weedEffectOnCrop W) ≤ cropNet C W P ∧
    (cropNet C W P = 0.05 ∨
      cropNet C W P = cropBase C * (1 - pestEffectOnCrop P - weedEffectOnCrop W)) := by
  unfold cropNet
  exact ⟨le_max_left _ _, le_max_right _ _, max_choice _ _⟩

/-- C3 counterexample: at year 8 the mechanical-weeding efficiency is
0.49, not the claimed 0.5, and on a concrete year-8 state with weed 30 the
organic control does not multiply weed by (1 − 0.5). -/
theorem mech_plateau_counterexample :
    mechEfficiency 8 ≠ 0.5 ∧
    (applyOrganicWeedControl simC).states.weed ≠ simC.states.weed * (1 - 0.5) := by
  constructor
  · unfold mechEfficiency
    norm_num
  · rw [applyOrganicWeedControl_states]
    show max 0 (organicWeedValue simC) ≠ simC.states.weed * (1 - 0.5)
    unfold organicWeedValue mechEfficiency
    norm_num [simC, initialStates, scenarioA]

/-- C3 amended: the mechanical-weeding efficiency equals
`min(0.5, 0.25 + 0.03·min(8, year))` and is applied as a factor
(1 − efficiency) whenever weed > 20; because the inner cap stops at year 8,
the efficiency plateaus at 0.49 (not 0.5) for every year ≥ 8. -/
theorem mech_efficiency_plateau (sim : Sim) (y : ℕ) :
    (20 < sim.states.weed →
      (applyOrganicWeedControl sim).states.weed =
        max 0 (sim.states.weed * (1 - mechEfficiency sim.year) *
          (if sim.scenario.use_cover_crop then 0.8 else 1) *
          (1 - min 0.3 (sim.states.crop * 0.001)))) ∧
    mechEfficiency y = min 0.5 (0.25 + 0.03 * min 8 (y : ℚ)) ∧
    (8 ≤ y → mechEfficiency y = 0.49) := by
  refine ⟨?_, rfl, ?_⟩
  · intro hw
    rw [applyOrganicWeedControl_states]
    show max 0 (organicWeedValue sim) = _
    unfold organicWeedValue
    rw [if_pos hw]
  · intro hy
    unfold mechEfficiency
    rw [min_eq_left (show (8:ℚ) ≤ (y:ℚ) by exact_mod_cast hy)]
    norm_num

/-- Witness for C3's amended claim at year 8 with weed 30. -/
theorem mech_efficiency_plateau_witness :
    (applyOrganicWeedControl simC).states.weed =
      max 0 (simC.states.weed * (1 - mechEfficiency simC.year) *
        (if simC.scenario.use_cover_crop then 0.8 else 1) *
        (1 - min 0.3 (simC.states.crop * 0.001))) ∧
    mechEfficiency 8 = 0.49 :=
  ⟨(mech_efficiency_plateau simC 8).1 (by norm_num [simC, initialStates]),
   (mech_efficiency_plateau simC 8).2.2 (by norm_num)⟩

/-- C4: in every summer step exactly one of herbicide application and
organic weed control runs, chosen solely by herbicide eligibility evaluated
after the pesticide phase; and the organic control is the fixed-order
composition of mechanical weeding, cover-crop, crop-density suppression
and the final clamp. -/
theorem summer_weed_mutex (sim : Sim) :
    (shouldApplyChemical .herbicide
        (if shouldApplyChemical .pesticide sim then applyChemical .pesticide sim else sim) =
          true →
      handleSummerOperations sim =
        applyChemical .herbicide
          (if shouldApplyChemical .pesticide sim then applyChemical .pesticide sim else sim)) ∧
    (shouldApplyChemical .herbicide
        (if shouldApplyChemical .pesticide sim then applyChemical .pesticide sim else sim) =
          false →
      handleSummerOperations sim =
        applyOrganicWeedControl
          (if shouldApplyChemical .pesticide sim then applyChemical .pesticide sim else sim)) ∧
    (∀ s : Sim, applyOrganicWeedControl s =
      specWeedClamp (specCropDensity (specCoverCrop (specMechanicalWeeding s)))) := by
  refine ⟨?_, ?_, applyOrganicWeedControl_staged⟩
  · intro h
    rw [handleSummerOperations_eq]
    unfold summerWeedPhase
    rw [if_pos h]
  · intro h
    rw [handleSummerOperations_eq]
    unfold summerWeedPhase
    rw [if_neg (by simp [h])]

/-- Witness for C4: herbicide flag on but weed = 10 ≤ 15, so the organic
fallback runs. -/
theorem summer_weed_mutex_witness :
    handleSummerOperations simD =
      applyOrganicWeedControl
        (if shouldApplyChemical .pesticide simD then applyChemical .pesticide simD
         else simD) :=
  (summer_weed_mutex simD).2.1 (by decide)

/-- C5: for every scenario and every number of completed years, all nine
state fields of the current state are non-negative, and so are all nine
fields of every recorded history snapshot (each snapshot is the state at
the end of one season step). -/
theorem all_state_fields_nonneg (sc : Scenario) (n : ℕ) :
    Nonneg (simYears sc n).states ∧
    ∀ snap ∈ (simYears sc n).history, Nonneg snap.state := by
  have h := simYears_simInv sc n
  exact ⟨h.1.1, fun snap hs => (h.2 snap hs).1⟩

/-- Witness for C5 on the first snapshot of a one-year pesticide run. -/
theorem all_state_fields_nonneg_witness :
    Nonneg (simYears scenarioA 1).states ∧
    Nonneg ((simYears scenarioA 1).history.head (by
      have hlen := simYears_history_length scenarioA 1
      intro hcon
      rw [hcon] at hlen
      simp at hlen)).state :=
  ⟨(all_state_fields_nonneg scenarioA 1).1,
   (all_state_fields_nonneg scenarioA 1).2 _ (List.head_mem _)⟩

/-- C6: from soil health within [0, 100], one fertilizer operation keeps
soil health within [0, 100]; the organic branch adds 15 nutrient and 2
health clamped above at 100, the chemical branch adds 30 nutrient and
subtracts 1 health clamped below at 0. -/
theorem fertilizer_soil_health_bounds (sim : Sim)
    (h0 : 0 ≤ sim.states.soil_health) (h1 : sim.states.soil_health ≤ 100) :
    (0 ≤ (applyFertilizer sim).states.soil_health ∧
      (applyFertilizer sim).states.soil_health ≤ 100) ∧
    (sim.scenario.use_organic_fertilizer = true →
      (applyFertilizer sim).states.soil_nutrient = sim.states.soil_nutrient + 15 ∧
      (applyFertilizer sim).states.soil_health = min 100 (sim.states.soil_health + 2)) ∧
    (sim.scenario.use_organic_fertilizer = false →
      (applyFertilizer sim).states.soil_nutrient = sim.states.soil_nutrient + 30 ∧
      (applyFertilizer sim).states.soil_health = max 0 (sim.states.soil_health - 1)) := by
  unfold applyFertilizer
  split_ifs with hf
  · refine ⟨⟨?_, ?_⟩, fun _ => ⟨rfl, rfl⟩, fun hno => by simp [hno] at hf⟩
    · show 0 ≤ min 100 (sim.states.soil_health + 2)
      exact le_min (by norm_num) (by linarith)
    · show min 100 (sim.states.soil_health + 2) ≤ 100
      exact min_le_left _ _
  · refine ⟨⟨?_, ?_⟩, fun hyes => absurd hyes hf, fun _ => ⟨rfl, rfl⟩⟩
    · show 0 ≤ max 0 (sim.states.soil_health - 1)
      exact le_max_left _ _
    · show max 0 (sim.states.soil_health - 1) ≤ 100
      exact max_le (by norm_num) (by linarith)

/-- Witness for C6 on a fresh organic simulation (soil health 50). -/
theorem fertilizer_soil_health_bounds_witness :
    (applyFertilizer simE).states.soil_health ≤ 100 ∧
    (applyFertilizer simE).states.soil_nutrient = simE.states.soil_nutrient + 15 :=
  ⟨(fertilizer_soil_health_bounds simE (by decide) (by decide)).1.2,
   ((fertilizer_soil_health_bounds simE (by decide) (by decide)).2.1 rfl).1⟩

/-- C7: with bird introduction enabled, the very first season step of a
fresh simulation (bird starts at 0) sets the bird population to exactly
2.0; afterwards it is strictly positive in every recorded snapshot and at
the end of every completed year — it never returns to 0. -/
theorem birds_introduced_persist (sc : Scenario) (hflag : sc.introduce_birds = true) :
    (stepSeason .spring (mkSim sc)).states.bird = 2 ∧
    (∀ n : ℕ, ∀ snap ∈ (simYears sc n).history, 0 < snap.state.bird) ∧
    (∀ n : ℕ, 1 ≤ n → 0 < (simYears sc n).states.bird) := by
  refine ⟨stepSeason_spring_mkSim_bird sc hflag, ?_, ?_⟩
  · intro n snap hsnap
    rcases Nat.eq_zero_or_pos n with h0 | h1
    · subst h0
      simp [simYears, mkSim] at hsnap
    · exact (simYears_birdInv sc hflag n h1).2.2 snap hsnap
  · intro n h1
    exact (simYears_birdInv sc hflag n h1).2.1

/-- Witness for C7 on the organic bird-introduction scenario. -/
theorem birds_introduced_persist_witness :
    (stepSeason .spring (mkSim scenarioB)).states.bird = 2 ∧
    0 < (simYears scenarioB 1).states.bird :=
  ⟨(birds_introduced_persist scenarioB rfl).1,
   (birds_introduced_persist scenarioB rfl).2.2 1 (by norm_num)⟩

/-- C8 counterexample: predator recovery is not part of the policy phase
run before the growth model.  On the first spring of a fresh
bird-introduction run, the policy phase (`seasonal_operations`) leaves the
bird population at 0 — the introduction to 2.0 happens only inside the
population update, after the clamped growth additions. -/
theorem recovery_not_in_policy_phase :
    (seasonalOperations .spring (mkSim scenarioB)).states.bird = 0 ∧
    (updatePopulations .spring (seasonalOperations .spring (mkSim scenarioB))).states.bird
      = 2 := by
  have hz : (seasonalOperations .spring (mkSim scenarioB)).states.bird = 0 := by
    rw [show seasonalOperations .spring (mkSim scenarioB) =
        handleSpringOperations (mkSim scenarioB) from rfl,
      handleSpringOperations_bird]
    rfl
  refine ⟨hz, ?_⟩
  rw [updatePopulations_eq]
  apply handlePredatorRecovery_seeds_bird
  · rw [popCore_scenario, seasonalOperations_scenario]
    rfl
  · rw [popCore_bird, calculateGrowthRates_snd_states_bird, calculateGrowthRates_fst_bird,
      hz]
    simp

/-- C8 amended: after `n` full years the year counter is exactly `n`; the
history holds exactly 4·n snapshots whose season labels repeat the fixed
order spring, summer, autumn, winter and whose year labels repeat each year
index four times (the counter increments only after all four seasons);
within one season step the order is policy operations, population update,
chemical decay, then one snapshot — with predator recovery running at the
end of the population update, after the five clamped growth additions, not
in the policy phase; and one simulated year is the four season steps in
order followed by the year increment. -/
theorem yearly_cycle_structure (sc : Scenario) (n : ℕ) :
    (simYears sc n).year = n ∧
    (simYears sc n).history.length = 4 * n ∧
    (simYears sc n).history.map Snapshot.season = seasonCycle n ∧
    (simYears sc n).history.map Snapshot.year = yearLabels n ∧
    (∀ s : Season, ∀ sim : Sim, stepSeason s sim =
      recordState s (updateChemicals (updatePopulations s (seasonalOperations s sim)))) ∧
    (∀ s : Season, ∀ sim : Sim, updatePopulations s sim =
      handlePredatorRecovery (popCore s sim)) ∧
    (∀ sim : Sim, simulateYear sim =
      { stepSeason .winter (stepSeason .autumn (stepSeason .summer (stepSeason .spring sim)))
          with
        year := (stepSeason .winter (stepSeason .autumn (stepSeason .summer
          (stepSeason .spring sim)))).year + 1 }) := by
  refine ⟨simYears_year sc n, simYears_history_length sc n, simYears_history_seasons sc n,
    simYears_history_years sc n, fun s sim => rfl, fun s sim => updatePopulations_eq s sim,
    fun sim => ?_⟩
  unfold simulateYear seasonOrder
  simp only [List.foldl_cons, List.foldl_nil]

/-- C9: in every recorded snapshot the pesticide residue is at most 37.5
and the herbicide residue is at most 28 — the raw doses 50 and 40 always
decay once (×0.75, ×0.7) before the snapshot is taken. -/
theorem residues_decay_before_recording (sc : Scenario) (n : ℕ) :
    ∀ snap ∈ (simYears sc n).history,
      snap.state.pesticide_residue ≤ 37.5 ∧ snap.state.herbicide_residue ≤ 28 := by
  intro snap hs
  have h := (simYears_simInv sc n).2 snap hs
  exact ⟨h.2.2.2.1, h.2.2.2.2⟩

/-- Witness for C9 on the first snapshot of a one-year pesticide run. -/
theorem residues_decay_before_recording_witness :
    ((simYears scenarioA 1).history.head (by
      have hlen := simYears_history_length scenarioA 1
      intro hcon
      rw [hcon] at hlen
      simp at hlen)).state.pesticide_residue ≤ 37.5 :=
  (residues_decay_before_recording scenarioA 1 _ (List.head_mem _)).1

/-- C10: for every scenario configuration, a fresh simulation starts at
crop 0, weed 30, pest 5, bird 0, bat 0, soil nutrient 50, soil health 50,
zero residues, year 0, empty history, with the scenario stored as given. -/
theorem fresh_simulation_initial_state (sc : Scenario) :
    (mkSim sc).states.crop = 0 ∧ (mkSim sc).states.weed = 30 ∧
    (mkSim sc).states.pest = 5 ∧ (mkSim sc).states.bird = 0 ∧
    (mkSim sc).states.bat = 0 ∧ (mkSim sc).states.soil_nutrient = 50 ∧
    (mkSim sc).states.soil_health = 50 ∧ (mkSim sc).states.herbicide_residue = 0 ∧
    (mkSim sc).states.pesticide_residue = 0 ∧ (mkSim sc).year = 0 ∧
    (mkSim sc).history = [] ∧ (mkSim sc).scenario = sc :=
  ⟨rfl, rfl, rfl, rfl, rfl, rfl, rfl, rfl, rfl, rfl, rfl, rfl⟩

end Agro
